import Mathlib

/-!
Verification of the barcode-scanner repository's specification against a
shallow embedding of its source code.

Embedded source files:
* `src/unnamed/part_000` (Azure HTTP trigger handler) — section `HttpTrigger`.
* `src/unnamed/part_001`, second component (the scanner variant with the
  secure-context check, the camera-API check and the constraint-profile
  fallback loop inside `initializeScanner`) — section `DeviceNegotiation`.
* `src/src/components/BarcodeScanner.tsx` (the scanner session component:
  `initializeScanner`, `startBarcodeScanning`, the decode callback,
  `cleanup`, `removeScannedCode`, `retryScanning`, and the unmount path) —
  section `Session`.
-/

namespace Barcode

/-! ### HTTP trigger (src/unnamed/part_000)

The handler reads `req.body`; if `!body || !body.barcode` it answers
400 with "Please pass barcode in request body", otherwise 200 with
"Received barcode: " followed by the barcode value.  JavaScript falsiness
for the `barcode` field is modelled for string values: the field is falsy
when it is absent or when it is the empty string. -/

/-- A request body as seen by the handler: the optional `barcode` field,
holding a string when present. -/
structure ReqBody where
  barcode : Option String
deriving DecidableEq, Repr

/-- An HTTP response set on `context.res`: a status code and a body. -/
structure HttpRes where
  status : Nat
  body : String
deriving DecidableEq, Repr

/-- JavaScript truthiness of the `barcode` field of a present body:
`!body.barcode` is true when the field is absent or an empty string. -/
def barcodeTruthy : ReqBody → Bool
  | ⟨none⟩ => false
  | ⟨some s⟩ => !(s = "")

/-- The HTTP trigger handler of `src/unnamed/part_000`: `module.exports`.
`none` for the whole body models an absent `req.body`. -/
def httpHandler (body : Option ReqBody) : HttpRes :=
  match body with
  | none => ⟨400, "Please pass barcode in request body"⟩
  | some b =>
    if barcodeTruthy b then
      ⟨200, "Received barcode: " ++ b.barcode.getD ""⟩
    else
      ⟨400, "Please pass barcode in request body"⟩

/-! ### Device negotiation (src/unnamed/part_001, `initializeScanner`)

The component checks `window.isSecureContext`, then
`navigator.mediaDevices && navigator.mediaDevices.getUserMedia`, then runs
the constraint-options loop: for `i` from `0`, try
`getUserMedia(constraintOptions[i])`; on success `break` with the stream;
on failure record `lastError` and `continue`.  After the loop, if no
stream was obtained it throws `lastError || new Error(...)`.

Constraint profiles are abstracted as an opaque type `π` (the source's
`constraintOptions` entries are four heterogeneous JS constraint objects);
the camera capability is a function `cam : π → Except String MediaStream`
giving for each profile either the granted stream or the error message the
request is rejected with. -/

/-- A granted camera stream handle, identified by a tag. -/
structure MediaStream where
  id : Nat
deriving DecidableEq, Repr

/-- Error message thrown when `window.isSecureContext` is false. -/
def insecureContextMsg : String := "Camera requires HTTPS connection"

/-- Error message thrown when the camera API is missing. -/
def unsupportedEnvMsg : String := "Camera API not available in this browser"

/-- Default error thrown after the loop when no profile was attempted
(`lastError` still null): `new Error('Failed to access camera with all
constraint options')`. -/
def allOptionsFailedMsg : String :=
  "Failed to access camera with all constraint options"

/-- The constraint-options loop of `initializeScanner`
(src/unnamed/part_001 lines 320–339), with the running `lastError`
(`none` before any failure).  Returns the list of profiles actually
passed to `getUserMedia`, in order, and the result: the first granted
stream, or — when the profile list is exhausted — the error thrown by
`throw lastError || new Error(...)`. -/
def acquireGo {π : Type} (cam : π → Except String MediaStream) :
    List π → Option String → List π × Except String MediaStream
  | [], lastErr => ([], .error (lastErr.getD allOptionsFailedMsg))
  | p :: ps, _lastErr =>
    match cam p with
    | .ok st => ([p], .ok st)
    | .error e =>
      let r := acquireGo cam ps (some e)
      (p :: r.1, r.2)

/-- The full constraint loop, started with `lastError = null`. -/
def acquire {π : Type} (cam : π → Except String MediaStream)
    (profiles : List π) : List π × Except String MediaStream :=
  acquireGo cam profiles none

/-- The acquisition phase of `initializeScanner` in src/unnamed/part_001:
the secure-context check (lines 272–274), then the camera-API check
(lines 277–279), then the constraint loop.  On a failed check nothing is
attempted: the trace of attempted profiles is empty. -/
def scannerAcquire {π : Type} (isSecureContext hasMediaDevices hasGUM : Bool)
    (cam : π → Except String MediaStream) (profiles : List π) :
    List π × Except String MediaStream :=
  if !isSecureContext then ([], .error insecureContextMsg)
  else if !hasMediaDevices || !hasGUM then ([], .error unsupportedEnvMsg)
  else acquire cam profiles

/-! ### Scan session (src/src/components/BarcodeScanner.tsx)

The component's mutable state is embedded as one record: the React state
variables (`isScanning`, `error`, `hasPermission`, `scannedCodes`,
`lastScannedCode`, `debugInfo`, `scanAttempts`, `videoReady`), the refs
(`streamRef`, `codeReaderRef`, `isInitializedRef`, `isMountedRef`), and
the video element (`videoRef.current` present / its `srcObject`).  A
ghost field `stoppedStreams` records every stream whose tracks have been
stopped (`stream.getTracks().forEach(track => track.stop())`), so that
resource-release claims are statable.  `debugInfo` is kept as the list of
appended log lines; log lines produced by deferred timers are linearized
at their scheduling point, and a decode result is its text payload (the
format tag only feeds a log line). -/

/-- The state of one `BarcodeScanner` component instance. -/
structure ScannerState where
  isScanning : Bool
  error : String
  hasPermission : Option Bool
  scannedCodes : List String
  lastScannedCode : String
  debugInfo : List String
  scanAttempts : Nat
  videoReady : Bool
  stream : Option MediaStream
  codeReader : Bool
  isInitialized : Bool
  isMounted : Bool
  videoPresent : Bool
  videoSrc : Option MediaStream
  stoppedStreams : List MediaStream
deriving DecidableEq, Repr

/-- The `cleanup` function (BarcodeScanner.tsx lines 241–275): clears the
init flag, scanning and video-ready state, resets and drops the code
reader, stops and drops the owned stream, and clears the video element's
`srcObject` (the scan-interval ref is never set outside `cleanup`, so
clearing it has no modelled effect). -/
def cleanup (s : ScannerState) : ScannerState :=
  let s := { s with isInitialized := false, isScanning := false, videoReady := false }
  let s := if s.codeReader then { s with codeReader := false } else s
  let s :=
    match s.stream with
    | some st => { s with stoppedStreams := s.stoppedStreams ++ [st], stream := none }
    | none => s
  if s.videoPresent then { s with videoSrc := none } else s

/-- The unmount path (the effect destructor, lines 34–37):
`isMountedRef.current = false` then `cleanup()`; React then detaches
`videoRef`.  This is the component's `dispose()`. -/
def dispose (s : ScannerState) : ScannerState :=
  let s := cleanup { s with isMounted := false }
  { s with videoPresent := false }

/-- The dedup insertion of the decode callback (lines 208–213):
`prev.includes(scannedValue) ? prev : [...prev, scannedValue]`. -/
def addCode (codes : List String) (t : String) : List String :=
  if t ∈ codes then codes else codes ++ [t]

/-- One invocation of the decode callback registered by
`decodeFromVideoDevice` (lines 195–217).  `res` is the decoded text when
a result was produced, `none` for the no-result/error case.  The stale
closure value of `scanAttempts` used by the periodic log line is modelled
by the pre-increment counter. -/
def deliverResult (s : ScannerState) (res : Option String) : ScannerState :=
  if !s.isMounted then s
  else
    let attempts0 := s.scanAttempts
    let s := { s with scanAttempts := s.scanAttempts + 1 }
    match res with
    | some t =>
      { s with
        lastScannedCode := t,
        debugInfo := s.debugInfo ++ ["✅ Detected: " ++ t],
        scannedCodes := addCode s.scannedCodes t }
    | none =>
      if attempts0 % 100 = 0 then
        { s with debugInfo := s.debugInfo ++ ["🔍 Scanning..."] }
      else s

/-- `removeScannedCode` (lines 283–285):
`prev.filter((_, i) => i !== index)`. -/
def removeScannedCode (s : ScannerState) (i : Nat) : ScannerState :=
  { s with scannedCodes :=
      (s.scannedCodes.enum.filter (fun p => p.1 != i)).map Prod.snd }

/-- Where, relative to the two awaits preceding the mounted-guard
returns, an unmount/dispose interleaves with a running
`initializeScanner` (the cooperative single-threaded model suspends only
at awaits). -/
inductive AwaitPoint
  | duringCam
  | duringVideoLoad
deriving DecidableEq, Repr

deriving instance DecidableEq for Except

/-- The environment script for one `initializeScanner` run: the outcome
of `getUserMedia`, of the video-readiness promise, of the play attempts,
of the `decodeFromVideoDevice` registration, and an optional interleaved
dispose. -/
structure InitEnv where
  cam : Except String MediaStream
  videoLoad : Except String Unit
  playOk : Bool
  videoNotPausedAtRetry : Bool
  retryPlayOk : Bool
  decodeStart : Except String Unit
  disposeAt : Option AwaitPoint
deriving DecidableEq, Repr

/-- How one `initializeScanner` call returned: skipped by the re-entry
guard, returned early on a mounted-guard check, ran to completion, or
took the catch path after an error (the async function returns normally
in every case — the error is rendered into the `error` state). -/
inductive InitOutcome
  | guardReturn
  | earlyReturn
  | completed
  | failed (msg : String)
deriving DecidableEq, Repr

/-- The synchronous prefix of `initializeScanner` before the
`getUserMedia` await (lines 45–65): set the init flag, clear `error`,
replace the debug log, create the code reader, log the request. -/
def initPre (s : ScannerState) : ScannerState :=
  { s with
    isInitialized := true, error := "",
    debugInfo := ["🔄 Initializing camera...", "📱 Requesting camera access..."],
    codeReader := true }

/-- The catch block of `initializeScanner` (lines 164–173): a mounted
guard, then clear the init flag, record denied permission and the error
message. -/
def initCatch (s : ScannerState) (msg : String) : ScannerState × InitOutcome :=
  if !s.isMounted then (s, .earlyReturn)
  else
    ({ s with
       isInitialized := false, hasPermission := some false,
       error := "Camera initialization failed: " ++ msg,
       debugInfo := s.debugInfo ++ ["❌ Error: " ++ msg] }, .failed msg)

/-- The play section (lines 130–150): try `video.play()`; on failure a
timer retries once, and on a second failure the code continues anyway —
`videoReady` becomes true on every branch except the retry finding the
video already playing (which returns without setting it). -/
def playSection (s : ScannerState) (env : InitEnv) : ScannerState :=
  if env.playOk then
    { s with
      videoReady := true,
      debugInfo := s.debugInfo ++ ["▶️ Video playing successfully"] }
  else if env.videoNotPausedAtRetry then s
  else if env.retryPlayOk then
    { s with
      videoReady := true,
      debugInfo := s.debugInfo ++ ["▶️ Video playing (retry successful)"] }
  else
    { s with
      videoReady := true,
      debugInfo := s.debugInfo ++ ["⚠️ Video play issues, but continuing..."] }

/-- `startBarcodeScanning` (lines 176–239): guard on code reader, video
element and mountedness; then register the continuous-decode callback,
catching a synchronous registration fault into the `error` state. -/
def startScanning (s : ScannerState) (decodeStart : Except String Unit) :
    ScannerState :=
  if !s.codeReader || !s.videoPresent || !s.isMounted then s
  else
    let s := { s with debugInfo := s.debugInfo ++ ["🎯 Barcode detection active"] }
    match decodeStart with
    | .ok _ => s
    | .error msg =>
      { s with
        error := "Scanner error: " ++ msg,
        debugInfo := s.debugInfo ++ ["❌ Scanner error: " ++ msg] }

/-- Interleave a dispose at await point `p` when the script says so. -/
def maybeDispose (s : ScannerState) (env : InitEnv) (p : AwaitPoint) :
    ScannerState :=
  if env.disposeAt = some p then dispose s else s

/-- Continuation of `initializeScanner` after the video-readiness
promise resolved (lines 128–163): the mounted re-check, the play section,
another mounted re-check, then scanning state and the deferred
`startBarcodeScanning` (its timer fires under a mounted guard). -/
def initTail (s : ScannerState) (env : InitEnv) : ScannerState × InitOutcome :=
  if !s.isMounted then (s, .earlyReturn)
  else
    let s := playSection s env
    if !s.isMounted then (s, .earlyReturn)
    else
      let s := { s with
        debugInfo := s.debugInfo ++ ["🔍 Starting barcode scanner..."],
        isScanning := true }
      let s := if s.isMounted then startScanning s env.decodeStart else s
      (s, .completed)

/-- Continuation of `initializeScanner` when the video element is present
(lines 78–126): attach the stream to `srcObject`, await the
video-readiness promise (an unmount may interleave), then continue or
jump to the catch block with the rejection message. -/
def initWithVideo (s : ScannerState) (env : InitEnv) (st : MediaStream) :
    ScannerState × InitOutcome :=
  let s := { s with videoSrc := some st }
  let s := maybeDispose s env .duringVideoLoad
  match env.videoLoad with
  | .error msg => initCatch s ("Video loading failed: " ++ msg)
  | .ok _ => initTail s env

/-- Continuation of `initializeScanner` after `getUserMedia` resolved
(lines 67–163): on rejection, the catch block; on a granted stream, the
late-stream mounted check (stop the tracks and return when unmounted),
then stream ownership, permission, and the video phase. -/
def initAfterCam (s : ScannerState) (env : InitEnv) :
    ScannerState × InitOutcome :=
  match env.cam with
  | .error msg => initCatch s msg
  | .ok st =>
    if !s.isMounted then
      ({ s with stoppedStreams := s.stoppedStreams ++ [st] }, .earlyReturn)
    else
      let s :=
        { s with
          stream := some st, hasPermission := some true,
          debugInfo := s.debugInfo ++ ["✅ Camera access granted"] }
      if s.videoPresent then initWithVideo s env st else (s, .completed)

/-- The whole `initializeScanner` async function (lines 40–174),
linearized over the environment script: the re-entry guard, the
synchronous prefix, the `getUserMedia` await (an unmount may
interleave), then the post-acquisition continuation. -/
def initScanner (s : ScannerState) (env : InitEnv) :
    ScannerState × InitOutcome :=
  if s.isInitialized || !s.isMounted then (s, .guardReturn)
  else initAfterCam (maybeDispose (initPre s) env .duringCam) env

/-- `retryScanning` (lines 287–294): `cleanup()` then, after the settling
timer, `initializeScanner()` under a mounted guard. -/
def retryScanning (s : ScannerState) (env : InitEnv) : ScannerState :=
  let s := cleanup s
  if s.isMounted then (initScanner s env).1 else s

/-- One externally triggerable session operation. -/
inductive SessionOp
  | start (env : InitEnv)
  | stop
  | retry (env : InitEnv)
  | deliver (res : Option String)
  | remove (i : Nat)
  | unmount
deriving Repr

/-- Apply one session operation to the state. -/
def applyOp (s : ScannerState) : SessionOp → ScannerState
  | .start env => (initScanner s env).1
  | .stop => cleanup s
  | .retry env => retryScanning s env
  | .deliver res => deliverResult s res
  | .remove i => removeScannedCode s i
  | .unmount => dispose s

/-- Run a sequence of session operations. -/
def runOps (s : ScannerState) (ops : List SessionOp) : ScannerState :=
  ops.foldl applyOp s

/-- Run a sequence of decode-callback invocations. -/
def runDeliveries (s : ScannerState) (evs : List (Option String)) :
    ScannerState :=
  evs.foldl deliverResult s

/-- A freshly mounted component with the video element rendered, before
any initialization. -/
def initialState : ScannerState :=
  { isScanning := false, error := "", hasPermission := none,
    scannedCodes := [], lastScannedCode := "", debugInfo := [],
    scanAttempts := 0, videoReady := false, stream := none,
    codeReader := false, isInitialized := false, isMounted := true,
    videoPresent := true, videoSrc := none, stoppedStreams := [] }

/-- A benign environment script: acquisition (granting stream `1`),
video readiness, play and decode registration all succeed, with no
interleaved unmount. -/
def okEnv : InitEnv :=
  { cam := .ok ⟨1⟩, videoLoad := .ok (), playOk := true,
    videoNotPausedAtRetry := false, retryPlayOk := true,
    decodeStart := .ok (), disposeAt := none }

/-- A mid-session state: initialized, scanning, owning stream `0`, with
one decoded text "123" accumulated. -/
def midState : ScannerState :=
  { initialState with
    scannedCodes := ["123"], isInitialized := true, isScanning := true,
    stream := some ⟨0⟩, codeReader := true, hasPermission := some true,
    videoSrc := some ⟨0⟩, videoReady := true }

/-! ### Helper lemmas for the session model -/

/-- Closed-form description of `cleanup`. -/
theorem cleanup_eq (s : ScannerState) :
    cleanup s = { s with
      isInitialized := false, isScanning := false, videoReady := false,
      codeReader := false, stream := none,
      stoppedStreams := s.stoppedStreams ++ s.stream.toList,
      videoSrc := if s.videoPresent then none else s.videoSrc } := by
  rcases s with ⟨f1, f2, f3, f4, f5, f6, f7, f8, st, cr, ii, im, vp, vs, ss⟩
  cases st <;> cases cr <;> cases vp <;> simp [cleanup]

/-- Closed-form description of `dispose` (unmount + `cleanup`). -/
theorem dispose_eq (s : ScannerState) :
    dispose s = { s with
      isMounted := false, videoPresent := false,
      isInitialized := false, isScanning := false, videoReady := false,
      codeReader := false, stream := none,
      stoppedStreams := s.stoppedStreams ++ s.stream.toList,
      videoSrc := if s.videoPresent then none else s.videoSrc } := by
  simp [dispose, cleanup_eq]

/-- `cleanup` is a no-op on an already disposed session: every field it
writes already holds the written value. -/
theorem cleanup_dispose (s : ScannerState) : cleanup (dispose s) = dispose s := by
  simp [cleanup_eq, dispose_eq]

/-- The re-entry guard of `initializeScanner`: with the init flag set or
the component unmounted, the call returns at once with the state
untouched. -/
theorem initScanner_guard (s : ScannerState) (env : InitEnv)
    (h : s.isInitialized = true ∨ s.isMounted = false) :
    initScanner s env = (s, .guardReturn) := by
  unfold initScanner
  rcases h with h | h <;> simp [h]

/-- `initCatch` never writes `scannedCodes`. -/
theorem initCatch_scannedCodes (s : ScannerState) (msg : String) :
    ((initCatch s msg).1).scannedCodes = s.scannedCodes := by
  cases h : s.isMounted <;> simp [initCatch, h]

/-- `playSection` never writes `scannedCodes`. -/
theorem playSection_scannedCodes (s : ScannerState) (env : InitEnv) :
    (playSection s env).scannedCodes = s.scannedCodes := by
  unfold playSection
  split
  · rfl
  · split
    · rfl
    · split <;> rfl

/-- `startBarcodeScanning` never writes `scannedCodes`. -/
theorem startScanning_scannedCodes (s : ScannerState)
    (ds : Except String Unit) :
    (startScanning s ds).scannedCodes = s.scannedCodes := by
  unfold startScanning
  split
  · rfl
  · cases ds <;> simp

/-- `maybeDispose` never writes `scannedCodes`. -/
theorem maybeDispose_scannedCodes (s : ScannerState) (env : InitEnv)
    (p : AwaitPoint) : (maybeDispose s env p).scannedCodes = s.scannedCodes := by
  unfold maybeDispose
  split <;> simp [dispose_eq]

/-- The post-video-readiness continuation never writes `scannedCodes`. -/
theorem initTail_scannedCodes (s : ScannerState) (env : InitEnv) :
    ((initTail s env).1).scannedCodes = s.scannedCodes := by
  unfold initTail
  dsimp only
  split
  · rfl
  · split
    · exact playSection_scannedCodes s env
    · split
      · rw [startScanning_scannedCodes]
        exact playSection_scannedCodes s env
      · exact playSection_scannedCodes s env

/-- The video continuation never writes `scannedCodes`. -/
theorem initWithVideo_scannedCodes (s : ScannerState) (env : InitEnv)
    (st : MediaStream) :
    ((initWithVideo s env st).1).scannedCodes = s.scannedCodes := by
  unfold initWithVideo
  dsimp only
  split
  · rw [initCatch_scannedCodes, maybeDispose_scannedCodes]
  · rw [initTail_scannedCodes, maybeDispose_scannedCodes]

/-- The post-acquisition continuation never writes `scannedCodes`. -/
theorem initAfterCam_scannedCodes (s : ScannerState) (env : InitEnv) :
    ((initAfterCam s env).1).scannedCodes = s.scannedCodes := by
  unfold initAfterCam
  dsimp only
  split
  · rw [initCatch_scannedCodes]
  · split
    · rfl
    · split
      · rw [initWithVideo_scannedCodes]
      · rfl

/-- No branch of `initializeScanner` writes `scannedCodes`. -/
theorem initScanner_scannedCodes (s : ScannerState) (env : InitEnv) :
    ((initScanner s env).1).scannedCodes = s.scannedCodes := by
  unfold initScanner
  split
  · rfl
  · rw [initAfterCam_scannedCodes, maybeDispose_scannedCodes]
    rfl

/-- `retryScanning` never writes `scannedCodes`. -/
theorem retryScanning_scannedCodes (s : ScannerState) (env : InitEnv) :
    (retryScanning s env).scannedCodes = s.scannedCodes := by
  unfold retryScanning
  dsimp only
  split
  · rw [initScanner_scannedCodes]
    simp [cleanup_eq]
  · simp [cleanup_eq]

/-- Membership in the dedup insertion. -/
theorem mem_addCode (l : List String) (t a : String) :
    a ∈ addCode l t ↔ a ∈ l ∨ a = t := by
  by_cases ht : t ∈ l
  · simp only [addCode, if_pos ht]
    constructor
    · exact Or.inl
    · rintro (ha | rfl)
      · exact ha
      · exact ht
  · simp [addCode, ht]

/-- The dedup insertion preserves duplicate-freedom. -/
theorem nodup_addCode (l : List String) (t : String) (h : l.Nodup) :
    (addCode l t).Nodup := by
  by_cases ht : t ∈ l
  · simpa [addCode, ht] using h
  · simp [addCode, ht, List.nodup_append, h]

/-- Membership after folding the dedup insertion over a list. -/
theorem mem_foldl_addCode (l acc : List String) (a : String) :
    a ∈ l.foldl addCode acc ↔ a ∈ acc ∨ a ∈ l := by
  induction l generalizing acc with
  | nil => simp
  | cons x l ih =>
    rw [List.foldl_cons, ih, mem_addCode]
    simp [List.mem_cons, or_assoc]

/-- Folding the dedup insertion preserves duplicate-freedom. -/
theorem nodup_foldl_addCode (l acc : List String) (h : acc.Nodup) :
    (l.foldl addCode acc).Nodup := by
  induction l generalizing acc with
  | nil => simpa using h
  | cons x l ih => exact ih _ (nodup_addCode _ _ h)

/-- The accumulated list is ordered by first occurrence in the input:
folding the dedup insertion from the empty accumulator lists values in
strictly increasing order of their first-occurrence index. -/
theorem pairwise_foldl_addCode (l : List String) :
    (l.foldl addCode []).Pairwise (fun a b => l.indexOf a < l.indexOf b) := by
  induction l using List.reverseRecOn with
  | nil => simp
  | append_singleton l x ih =>
    have hstep : (l ++ [x]).foldl addCode [] = addCode (l.foldl addCode []) x := by
      rw [List.foldl_append]
      rfl
    rw [hstep]
    by_cases hx : x ∈ l.foldl addCode []
    · rw [addCode, if_pos hx]
      refine ih.imp_of_mem ?_
      intro a b ha hb hab
      have hal : a ∈ l := ((mem_foldl_addCode l [] a).1 ha).resolve_left (by simp)
      have hbl : b ∈ l := ((mem_foldl_addCode l [] b).1 hb).resolve_left (by simp)
      rw [List.indexOf_append_of_mem hal, List.indexOf_append_of_mem hbl]
      exact hab
    · have hxl : x ∉ l := fun hc => hx ((mem_foldl_addCode l [] x).2 (Or.inr hc))
      rw [addCode, if_neg hx, List.pairwise_append]
      refine ⟨?_, List.pairwise_singleton _ _, ?_⟩
      · refine ih.imp_of_mem ?_
        intro a b ha hb hab
        have hal : a ∈ l := ((mem_foldl_addCode l [] a).1 ha).resolve_left (by simp)
        have hbl : b ∈ l := ((mem_foldl_addCode l [] b).1 hb).resolve_left (by simp)
        rw [List.indexOf_append_of_mem hal, List.indexOf_append_of_mem hbl]
        exact hab
      · intro a ha b hb
        rw [List.mem_singleton] at hb
        subst hb
        have hal : a ∈ l := ((mem_foldl_addCode l [] a).1 ha).resolve_left (by simp)
        rw [List.indexOf_append_of_mem hal, List.indexOf_append_of_not_mem hxl]
        simpa using List.indexOf_lt_length.2 hal

/-- The decode callback never changes the mounted flag. -/
theorem deliverResult_isMounted (s : ScannerState) (res : Option String) :
    (deliverResult s res).isMounted = s.isMounted := by
  unfold deliverResult
  split
  · rfl
  · split
    · rfl
    · dsimp only
      split <;> rfl

/-- On a mounted session, one decode delivery transforms `scannedCodes`
by the dedup insertion (for a result) or leaves it unchanged (for a
no-result attempt). -/
theorem deliverResult_scannedCodes (s : ScannerState) (res : Option String)
    (hm : s.isMounted = true) :
    (deliverResult s res).scannedCodes =
      (match res with
       | some t => addCode s.scannedCodes t
       | none => s.scannedCodes) := by
  unfold deliverResult
  rw [if_neg (by simp [hm])]
  split
  · rfl
  · dsimp only
    split <;> rfl

/-- On a mounted session, a sequence of decode deliveries folds the dedup
insertion over the delivered texts. -/
theorem runDeliveries_scannedCodes (s : ScannerState)
    (evs : List (Option String)) (hm : s.isMounted = true) :
    (runDeliveries s evs).scannedCodes =
      (evs.filterMap id).foldl addCode s.scannedCodes := by
  induction evs generalizing s with
  | nil => rfl
  | cons e evs ih =>
    have hm2 : (deliverResult s e).isMounted = true := by
      rw [deliverResult_isMounted]
      exact hm
    have hstep : runDeliveries s (e :: evs) = runDeliveries (deliverResult s e) evs := rfl
    rw [hstep, ih _ hm2, deliverResult_scannedCodes s e hm]
    cases e with
    | some t => rfl
    | none => rfl

/-- Removing an index yields a sublist, so duplicate-freedom is kept. -/
theorem removeScannedCode_nodup (s : ScannerState) (i : Nat)
    (h : s.scannedCodes.Nodup) :
    ((removeScannedCode s i).scannedCodes).Nodup := by
  have h1 : ((s.scannedCodes.enum.filter (fun p => p.1 != i)).map Prod.snd).Sublist
      (s.scannedCodes.enum.map Prod.snd) := (List.filter_sublist _).map Prod.snd
  rw [List.enum_map_snd] at h1
  exact h.sublist h1

/-- One decode delivery keeps `scannedCodes` duplicate-free. -/
theorem deliverResult_nodup (s : ScannerState) (res : Option String)
    (h : s.scannedCodes.Nodup) : ((deliverResult s res).scannedCodes).Nodup := by
  unfold deliverResult
  split
  · exact h
  · split
    · exact nodup_addCode _ _ h
    · dsimp only
      split <;> exact h

/-- Every session operation keeps `scannedCodes` duplicate-free. -/
theorem applyOp_nodup (s : ScannerState) (op : SessionOp)
    (h : s.scannedCodes.Nodup) : ((applyOp s op).scannedCodes).Nodup := by
  cases op with
  | start env =>
    show ((initScanner s env).1.scannedCodes).Nodup
    rw [initScanner_scannedCodes]
    exact h
  | stop =>
    show ((cleanup s).scannedCodes).Nodup
    rw [cleanup_eq]
    exact h
  | retry env =>
    show ((retryScanning s env).scannedCodes).Nodup
    rw [retryScanning_scannedCodes]
    exact h
  | deliver res => exact deliverResult_nodup s res h
  | remove i => exact removeScannedCode_nodup s i h
  | unmount =>
    show ((dispose s).scannedCodes).Nodup
    rw [dispose_eq]
    exact h

/-- Any sequence of session operations keeps `scannedCodes`
duplicate-free. -/
theorem runOps_nodup (s : ScannerState) (ops : List SessionOp)
    (h : s.scannedCodes.Nodup) : ((runOps s ops).scannedCodes).Nodup := by
  induction ops generalizing s with
  | nil => exact h
  | cons op ops ih => exact ih _ (applyOp_nodup s op h)

/-- `playSection` touches neither the owned stream nor the stop log. -/
theorem playSection_stream (s : ScannerState) (env : InitEnv) :
    (playSection s env).stream = s.stream ∧
    (playSection s env).stoppedStreams = s.stoppedStreams := by
  unfold playSection
  split
  · exact ⟨rfl, rfl⟩
  · split
    · exact ⟨rfl, rfl⟩
    · split <;> exact ⟨rfl, rfl⟩

/-- `startBarcodeScanning` touches neither the owned stream nor the stop
log. -/
theorem startScanning_stream (s : ScannerState) (ds : Except String Unit) :
    (startScanning s ds).stream = s.stream ∧
    (startScanning s ds).stoppedStreams = s.stoppedStreams := by
  unfold startScanning
  split
  · exact ⟨rfl, rfl⟩
  · dsimp only
    split <;> exact ⟨rfl, rfl⟩

/-- The catch block touches neither the owned stream nor the stop log. -/
theorem initCatch_stream (s : ScannerState) (msg : String) :
    ((initCatch s msg).1).stream = s.stream ∧
    ((initCatch s msg).1).stoppedStreams = s.stoppedStreams := by
  unfold initCatch
  split <;> exact ⟨rfl, rfl⟩

/-- The post-video-readiness continuation touches neither the owned
stream nor the stop log. -/
theorem initTail_stream (s : ScannerState) (env : InitEnv) :
    ((initTail s env).1).stream = s.stream ∧
    ((initTail s env).1).stoppedStreams = s.stoppedStreams := by
  unfold initTail
  dsimp only
  split
  · exact ⟨rfl, rfl⟩
  · split
    · exact playSection_stream s env
    · split
      · constructor
        · rw [(startScanning_stream _ _).1]
          exact (playSection_stream s env).1
        · rw [(startScanning_stream _ _).2]
          exact (playSection_stream s env).2
      · exact playSection_stream s env

/-- `dispose` keeps every stream accounted for: a stream that is owned or
already stopped is, afterwards, stopped (the owned stream's tracks are
stopped by `cleanup`). -/
theorem dispose_owned_or_stopped (s : ScannerState) (st : MediaStream)
    (h : st ∈ s.stoppedStreams ∨ s.stream = some st) :
    st ∈ (dispose s).stoppedStreams ∨ (dispose s).stream = some st := by
  rw [dispose_eq]
  rcases h with h | h
  · exact Or.inl (List.mem_append_left _ h)
  · refine Or.inl (List.mem_append_right _ ?_)
    rw [h]
    simp

/-- A possible dispose interleave keeps every stream accounted for. -/
theorem maybeDispose_owned_or_stopped (s : ScannerState) (env : InitEnv)
    (p : AwaitPoint) (st : MediaStream)
    (h : st ∈ s.stoppedStreams ∨ s.stream = some st) :
    st ∈ (maybeDispose s env p).stoppedStreams ∨
      (maybeDispose s env p).stream = some st := by
  unfold maybeDispose
  split
  · exact dispose_owned_or_stopped s st h
  · exact h

/-- The video continuation keeps every stream accounted for. -/
theorem initWithVideo_owned_or_stopped (s : ScannerState) (env : InitEnv)
    (st2 st : MediaStream)
    (h : st ∈ s.stoppedStreams ∨ s.stream = some st) :
    st ∈ ((initWithVideo s env st2).1).stoppedStreams ∨
      ((initWithVideo s env st2).1).stream = some st := by
  unfold initWithVideo
  dsimp only
  have h2 : st ∈ ({ s with videoSrc := some st2 } : ScannerState).stoppedStreams ∨
      ({ s with videoSrc := some st2 } : ScannerState).stream = some st := h
  have h3 := maybeDispose_owned_or_stopped _ env .duringVideoLoad st h2
  split
  · rcases h3 with h3 | h3
    · exact Or.inl (by rw [(initCatch_stream _ _).2]; exact h3)
    · exact Or.inr (by rw [(initCatch_stream _ _).1]; exact h3)
  · rcases h3 with h3 | h3
    · exact Or.inl (by rw [(initTail_stream _ _).2]; exact h3)
    · exact Or.inr (by rw [(initTail_stream _ _).1]; exact h3)

/-- Once `getUserMedia` resolves with a stream, every exit of the
continuation leaves that stream stopped or owned. -/
theorem initAfterCam_owned_or_stopped (s : ScannerState) (env : InitEnv)
    (st : MediaStream) (hcam : env.cam = .ok st) :
    st ∈ ((initAfterCam s env).1).stoppedStreams ∨
      ((initAfterCam s env).1).stream = some st := by
  unfold initAfterCam
  rw [hcam]
  dsimp only
  split
  · exact Or.inl (List.mem_append_right _ (by simp))
  · split
    · exact initWithVideo_owned_or_stopped _ env st st (Or.inr rfl)
    · exact Or.inr rfl

/-! ### Helper lemmas for the constraint loop -/

/-- Unfolding step of the loop at a failing head profile. -/
theorem acquireGo_cons_error {π : Type} (cam : π → Except String MediaStream)
    (p : π) (ps : List π) (lastErr : Option String) (e : String)
    (he : cam p = .error e) :
    acquireGo cam (p :: ps) lastErr =
      (p :: (acquireGo cam ps (some e)).1, (acquireGo cam ps (some e)).2) := by
  simp [acquireGo, he]

/-- The loop, run from any `lastError`, on a profile list whose first
success is at index `k`: it attempts exactly the first `k + 1` profiles,
in list order, and returns the stream granted at index `k`. -/
theorem acquireGo_first_success {π : Type} (cam : π → Except String MediaStream)
    (ps : List π) (k : Nat) (hk : k < ps.length) (st : MediaStream)
    (hsucc : cam (ps.get ⟨k, hk⟩) = .ok st)
    (hfail : ∀ j (hj : j < k), ∃ e, cam (ps.get ⟨j, hj.trans hk⟩) = .error e)
    (lastErr : Option String) :
    acquireGo cam ps lastErr = (ps.take (k + 1), .ok st) := by
  induction ps generalizing k lastErr with
  | nil => simp at hk
  | cons p ps ih =>
    cases k with
    | zero =>
      have hp : cam p = .ok st := hsucc
      simp [acquireGo, hp]
    | succ k =>
      obtain ⟨e, he⟩ := hfail 0 (Nat.succ_pos k)
      have hp : cam p = .error e := he
      have hk' : k < ps.length := Nat.lt_of_succ_lt_succ hk
      have ihk := ih k hk' hsucc
        (fun j hj => hfail (j + 1) (Nat.succ_lt_succ hj)) (some e)
      simp [acquireGo, hp, ihk]

/-- The loop, run from any `lastError`, on a nonempty profile list on
which every request fails: it attempts every profile, in order, and the
value thrown after the loop is the error of the final profile. -/
theorem acquireGo_all_fail {π : Type} (cam : π → Except String MediaStream)
    (ps : List π) (hne : ps ≠ [])
    (hfail : ∀ p ∈ ps, ∃ e, cam p = .error e)
    (elast : String) (hlast : cam (ps.getLast hne) = .error elast)
    (lastErr : Option String) :
    acquireGo cam ps lastErr = (ps, .error elast) := by
  induction ps generalizing lastErr with
  | nil => exact absurd rfl hne
  | cons p ps ih =>
    obtain ⟨e, he⟩ := hfail p (List.mem_cons_self p ps)
    cases ps with
    | nil =>
      have : cam p = .error elast := hlast
      rw [he] at this
      cases this
      simp [acquireGo, he]
    | cons q ps =>
      have hne' : q :: ps ≠ [] := by simp
      have hlast' : cam ((q :: ps).getLast hne') = .error elast := by
        rw [← hlast]
        exact congrArg cam (List.getLast_cons hne').symm
      have ihq := ih hne' (fun r hr => hfail r (List.mem_cons_of_mem _ hr))
        hlast' (some e)
      rw [acquireGo_cons_error cam p (q :: ps) lastErr e he, ihq]

/-! ### Claim theorems -/

/-- C1 (confirmed). For every ordered sequence of constraint profiles,
the constraint loop in `initializeScanner` requests camera access with
each profile strictly in sequence order and, on the first profile whose
request succeeds (index `k`: all earlier profiles fail, profile `k` is
granted stream `st`), the attempted-profile trace is exactly the first
`k + 1` profiles in order and the granted stream is returned immediately;
no later profile is ever requested. -/
theorem claim_C1_first_success {π : Type} (cam : π → Except String MediaStream)
    (ps : List π) (k : Nat) (hk : k < ps.length) (st : MediaStream)
    (hsucc : cam (ps.get ⟨k, hk⟩) = .ok st)
    (hfail : ∀ j (hj : j < k), ∃ e, cam (ps.get ⟨j, hj.trans hk⟩) = .error e) :
    acquire cam ps = (ps.take (k + 1), .ok st) :=
  acquireGo_first_success cam ps k hk st hsucc hfail none

/-- Witness for C1: profiles `[0, 1, 2]` where profile `0` fails and
profile `1` succeeds — exactly `[0, 1]` are attempted and stream `1` is
returned; profile `2` is never requested. -/
theorem claim_C1_witness :
    acquire (fun n => if n = 0 then .error "denied" else .ok ⟨n⟩) [0, 1, 2] =
      ([0, 1].take 2, .ok ⟨1⟩) :=
  claim_C1_first_success (fun n => if n = 0 then .error "denied" else .ok ⟨n⟩)
    [0, 1, 2] 1 (by decide) ⟨1⟩ rfl
    (fun j hj => ⟨"denied", by
      have hj0 : j = 0 := Nat.lt_one_iff.mp hj
      subst hj0
      rfl⟩)

/-- C3 (confirmed). If every constraint profile in the (nonempty)
sequence fails, the loop attempts every profile in order and acquisition
fails by throwing the last recorded underlying error — the error raised
by the final attempted profile's camera request (the spec's
`NoCameraAvailable` failure is this `throw lastError || new Error(...)`
site). -/
theorem claim_C3_all_fail {π : Type} (cam : π → Except String MediaStream)
    (ps : List π) (hne : ps ≠ [])
    (hfail : ∀ p ∈ ps, ∃ e, cam p = .error e)
    (elast : String) (hlast : cam (ps.getLast hne) = .error elast) :
    acquire cam ps = (ps, .error elast) :=
  acquireGo_all_fail cam ps hne hfail elast hlast none

/-- Witness for C3: two profiles, both failing, with distinct errors —
the error surfaced is the second (final) profile's error. -/
theorem claim_C3_witness :
    acquire (fun n => .error (if n = 0 then "first" else "second")) [0, 1] =
      ([0, 1], .error "second") :=
  claim_C3_all_fail (fun n => .error (if n = 0 then "first" else "second"))
    [0, 1] (by decide)
    (fun p _ => ⟨if p = 0 then "first" else "second", rfl⟩)
    "second" rfl

/-- C8 (corrected) — counterexample. In an environment that lacks the
camera API entirely and is also non-secure, `initializeScanner` fails
with the insecure-context error ("Camera requires HTTPS connection"),
not the unsupported-environment error, because the secure-context check
runs first; the claim's first conjunct ("lacks the camera API →
UnsupportedEnvironment") therefore fails on this input. -/
theorem claim_C8_counterexample :
    scannerAcquire false false false (fun n : Nat => .ok ⟨n⟩) [0] =
      ([], .error insecureContextMsg) ∧
    insecureContextMsg ≠ unsupportedEnvMsg := by
  exact ⟨rfl, by decide⟩

/-- C8 (amended). A non-secure execution context fails immediately with
the insecure-context error before attempting any profile (this check
runs first, so it wins even when the camera API is also missing); a
secure context lacking the camera API fails immediately with the
unsupported-environment error before attempting any profile.  In both
cases the attempted-profile trace is empty. -/
theorem claim_C8_amended {π : Type} (secure hmd hgum : Bool)
    (cam : π → Except String MediaStream) (ps : List π) :
    (secure = false →
      scannerAcquire secure hmd hgum cam ps = ([], .error insecureContextMsg)) ∧
    (secure = true → (hmd && hgum) = false →
      scannerAcquire secure hmd hgum cam ps = ([], .error unsupportedEnvMsg)) := by
  constructor
  · rintro rfl
    rfl
  · rintro rfl h
    cases hmd <;> cases hgum <;> simp_all [scannerAcquire]

/-- Witness for C8 (amended): both failure modes evaluated at concrete
environments. -/
theorem claim_C8_amended_witness :
    scannerAcquire false true true (fun n : Nat => .ok ⟨n⟩) [0] =
      ([], .error insecureContextMsg) ∧
    scannerAcquire true false true (fun n : Nat => .ok ⟨n⟩) [0] =
      ([], .error unsupportedEnvMsg) :=
  ⟨(claim_C8_amended false true true (fun n : Nat => .ok ⟨n⟩) [0]).1 rfl,
   (claim_C8_amended true false true (fun n : Nat => .ok ⟨n⟩) [0]).2 rfl rfl⟩

/-- C10 (corrected) — counterexample. A request whose body carries the
`barcode` field with the empty-string value gets a 400 response, although
the claim ("400 exactly when the body is absent or lacks a barcode
field") demands a 200 for it: JavaScript falsiness of `body.barcode`
also rejects a present-but-empty field. -/
theorem claim_C10_counterexample :
    httpHandler (some ⟨some ""⟩) = ⟨400, "Please pass barcode in request body"⟩ ∧
    httpHandler (some ⟨some ""⟩) ≠ ⟨200, "Received barcode: "⟩ := by
  exact ⟨rfl, by decide⟩

/-- C10 (amended). The handler responds 400 with "Please pass barcode in
request body" exactly when the body is absent, or the `barcode` field is
absent, or the `barcode` field is the empty string; otherwise it responds
200 with "Received barcode: " followed by the barcode value.  The
response is a function of the request body alone. -/
theorem claim_C10_amended (body : Option ReqBody) :
    (httpHandler body = ⟨400, "Please pass barcode in request body"⟩ ↔
      body = none ∨ body = some ⟨none⟩ ∨ body = some ⟨some ""⟩) ∧
    (∀ v, body = some ⟨some v⟩ → v ≠ "" →
      httpHandler body = ⟨200, "Received barcode: " ++ v⟩) := by
  constructor
  · constructor
    · intro h
      match body with
      | none => exact Or.inl rfl
      | some ⟨none⟩ => exact Or.inr (Or.inl rfl)
      | some ⟨some v⟩ =>
        refine Or.inr (Or.inr ?_)
        by_cases hv : v = ""
        · subst hv
          rfl
        · exfalso
          simp [httpHandler, barcodeTruthy, hv] at h
    · rintro (rfl | rfl | rfl) <;> rfl
  · rintro v rfl hv
    simp [httpHandler, barcodeTruthy, hv]

/-- Witness for C10 (amended): a present, nonempty barcode value gets the
200 response with the echoed value. -/
theorem claim_C10_amended_witness :
    httpHandler (some ⟨some "12345"⟩) = ⟨200, "Received barcode: " ++ "12345"⟩ :=
  (claim_C10_amended (some ⟨some "12345"⟩)).2 "12345" rfl (by decide)

/-- C4 (corrected) — counterexample. From a mid-session state holding the
decoded text "123", `retryScanning` (cleanup, settling timer, re-init,
all succeeding) leaves `scannedCodes` still `["123"]`, not the empty
ResultSet the claim demands: neither `cleanup` nor `initializeScanner`
ever resets `scannedCodes`. -/
theorem claim_C4_counterexample :
    (retryScanning midState okEnv).scannedCodes = ["123"] ∧
    ["123"] ≠ ([] : List String) := by
  exact ⟨rfl, by decide⟩

/-- C4 (amended). `retryScanning` preserves `scannedCodes` exactly: every
decoded text accumulated before the retry is still in the ResultSet after
the restart, whatever the environment does. -/
theorem claim_C4_amended (s : ScannerState) (env : InitEnv) :
    (retryScanning s env).scannedCodes = s.scannedCodes :=
  retryScanning_scannedCodes s env

/-- C6 (corrected) — counterexample. `start()` invoked after `dispose()`
returns silently through the re-entry guard with the state unchanged; no
error of any kind is raised (no `SessionDisposed` failure exists in the
code — the guard outcome is a plain return, not the catch path). -/
theorem claim_C6_counterexample :
    initScanner (dispose initialState) okEnv =
      (dispose initialState, InitOutcome.guardReturn) := rfl

/-- C6 (amended). Every operation invoked after `dispose()` — `start()`,
`stop()` (`cleanup`), `retry()`, and a decode-callback delivery — is a
silent no-op: the session state is completely unchanged and no error is
raised (the guards return before any effect; `cleanup` only rewrites
already-cleared fields). -/
theorem claim_C6_amended (s : ScannerState) (env : InitEnv)
    (res : Option String) :
    initScanner (dispose s) env = (dispose s, .guardReturn) ∧
    cleanup (dispose s) = dispose s ∧
    retryScanning (dispose s) env = dispose s ∧
    deliverResult (dispose s) res = dispose s := by
  have hm : (dispose s).isMounted = false := by simp [dispose_eq]
  refine ⟨initScanner_guard _ env (Or.inr hm), cleanup_dispose s, ?_, ?_⟩
  · unfold retryScanning
    dsimp only
    rw [cleanup_dispose s]
    simp [hm]
  · unfold deliverResult
    simp [hm]

/-- C7 (confirmed). When the session is disposed while the camera
acquisition is in flight (`disposeAt = duringCam`) and the acquisition
later resolves with stream `st`, the resumed continuation finds the
mounted flag cleared and returns at once: the late stream's tracks are
stopped (it is appended to `stoppedStreams`), it is never attached to the
video surface (`videoSrc = none`), it is never owned (`stream = none`),
and the final state is exactly the disposed state plus that track-stop —
no further transition occurs. -/
theorem claim_C7_late_stream (s : ScannerState) (st : MediaStream)
    (env : InitEnv) (hii : s.isInitialized = false)
    (him : s.isMounted = true) (hcam : env.cam = .ok st)
    (hdisp : env.disposeAt = some .duringCam) :
    initScanner s env =
      ({ dispose (initPre s) with
         stoppedStreams := (dispose (initPre s)).stoppedStreams ++ [st] },
       .earlyReturn) ∧
    (initScanner s env).1.videoSrc = (dispose (initPre s)).videoSrc ∧
    (initScanner s env).1.stream = none ∧
    st ∈ (initScanner s env).1.stoppedStreams := by
  have hm : (dispose (initPre s)).isMounted = false := by simp [dispose_eq]
  have hmain : initScanner s env =
      ({ dispose (initPre s) with
         stoppedStreams := (dispose (initPre s)).stoppedStreams ++ [st] },
       .earlyReturn) := by
    unfold initScanner initAfterCam maybeDispose
    simp [hii, him, hcam, hdisp, hm]
  refine ⟨hmain, ?_, ?_, ?_⟩ <;> rw [hmain] <;> simp [dispose_eq]

/-- C2 (confirmed). For every sequence of decode attempts delivered to
the decode callback of a mounted session with an empty ResultSet, the
accumulated `scannedCodes` never contains two equal text values (it is
duplicate-free), each distinct decoded text occurs exactly once (count
one for delivered texts, zero otherwise — so each is appended exactly
once, and appends are never undone by deliveries), and the accumulated
texts are ordered by the index of their first occurrence among the
decoded texts (first-seen order). -/
theorem claim_C2_dedup (s : ScannerState) (evs : List (Option String))
    (hm : s.isMounted = true) (h0 : s.scannedCodes = []) :
    ((runDeliveries s evs).scannedCodes).Nodup ∧
    (∀ t, ((runDeliveries s evs).scannedCodes).count t =
      if t ∈ evs.filterMap id then 1 else 0) ∧
    ((runDeliveries s evs).scannedCodes).Pairwise
      (fun a b =>
        (evs.filterMap id).indexOf a < (evs.filterMap id).indexOf b) := by
  have hrc : (runDeliveries s evs).scannedCodes =
      (evs.filterMap id).foldl addCode [] := by
    rw [runDeliveries_scannedCodes s evs hm, h0]
  have hnd : ((evs.filterMap id).foldl addCode []).Nodup :=
    nodup_foldl_addCode _ _ (by simp)
  refine ⟨hrc ▸ hnd, ?_, ?_⟩
  · intro t
    rw [hrc]
    by_cases ht : t ∈ evs.filterMap id
    · rw [if_pos ht]
      exact List.count_eq_one_of_mem hnd
        ((mem_foldl_addCode _ _ _).2 (Or.inr ht))
    · rw [if_neg ht]
      refine List.count_eq_zero.2 (fun hmem => ht ?_)
      exact ((mem_foldl_addCode _ _ _).1 hmem).resolve_left (by simp)
  · rw [hrc]
    exact pairwise_foldl_addCode _

/-- Witness for C2: deliveries "123", nothing, "123" again, "456" — the
ResultSet is duplicate-free and listed in first-seen order. -/
theorem claim_C2_witness :
    ((runDeliveries initialState
        [some "123", none, some "123", some "456"]).scannedCodes).Nodup ∧
    ((runDeliveries initialState
        [some "123", none, some "123", some "456"]).scannedCodes).Pairwise
      (fun a b =>
        (([some "123", none, some "123", some "456"] :
            List (Option String)).filterMap id).indexOf a <
        (([some "123", none, some "123", some "456"] :
            List (Option String)).filterMap id).indexOf b) :=
  ⟨(claim_C2_dedup initialState
      [some "123", none, some "123", some "456"] rfl rfl).1,
   (claim_C2_dedup initialState
      [some "123", none, some "123", some "456"] rfl rfl).2.2⟩

/-- C5 (corrected) — counterexample. From a session whose ResultSet holds
"123", removing it (`removeScannedCode 0`) and then delivering "123"
again re-appends the text: the claim's "once present, never added again
in the same session, for every sequence of operations including
removals" fails. -/
theorem claim_C5_counterexample :
    "123" ∈ midState.scannedCodes ∧
    (deliverResult (removeScannedCode midState 0) (some "123")).scannedCodes =
      (removeScannedCode midState 0).scannedCodes ++ ["123"] := by
  exact ⟨by decide, rfl⟩

/-- C5 (amended). While a text value remains present, a decode delivery
of it never changes the ResultSet (no second occurrence is ever added);
and across every sequence of session operations — decode deliveries,
removals, start/stop/retry/unmount — the ResultSet stays duplicate-free.
Only an explicit removal can make a re-append of the same text possible
within a session. -/
theorem claim_C5_amended (s : ScannerState) (t : String)
    (ops : List SessionOp) (hmem : t ∈ s.scannedCodes)
    (hnd : s.scannedCodes.Nodup) :
    (deliverResult s (some t)).scannedCodes = s.scannedCodes ∧
    ((runOps s ops).scannedCodes).Nodup := by
  constructor
  · unfold deliverResult
    split
    · rfl
    · dsimp only
      simp [addCode, hmem]
  · exact runOps_nodup s ops hnd

/-- Witness for C5 (amended): on the mid-session state holding "123",
delivering "123" again is a no-op on the ResultSet, and a
deliver-then-remove sequence keeps it duplicate-free. -/
theorem claim_C5_witness :
    (deliverResult midState (some "123")).scannedCodes =
      midState.scannedCodes ∧
    ((runOps midState
        [SessionOp.deliver (some "456"), SessionOp.remove 0]).scannedCodes).Nodup :=
  claim_C5_amended midState "123"
    [SessionOp.deliver (some "456"), SessionOp.remove 0]
    (by decide) (by decide)

/-- Witness for C7: a fresh mounted session, stream `5` granted after the
unmount interleaves during acquisition — the late stream is stopped and
never attached. -/
theorem claim_C7_witness :
    initScanner initialState
        { okEnv with cam := .ok ⟨5⟩, disposeAt := some .duringCam } =
      ({ dispose (initPre initialState) with
         stoppedStreams :=
           (dispose (initPre initialState)).stoppedStreams ++ [⟨5⟩] },
       .earlyReturn) ∧
    (initScanner initialState
        { okEnv with cam := .ok ⟨5⟩, disposeAt := some .duringCam }).1.videoSrc
      = (dispose (initPre initialState)).videoSrc ∧
    (initScanner initialState
        { okEnv with cam := .ok ⟨5⟩, disposeAt := some .duringCam }).1.stream
      = none ∧
    (⟨5⟩ : MediaStream) ∈
      (initScanner initialState
        { okEnv with cam := .ok ⟨5⟩, disposeAt := some .duringCam }).1.stoppedStreams :=
  claim_C7_late_stream initialState ⟨5⟩
    { okEnv with cam := .ok ⟨5⟩, disposeAt := some .duringCam }
    rfl rfl rfl rfl

/-- C9 (confirmed). On every exit path of a `start()` call that actually
runs (guard passed: not yet initialized, mounted) and whose camera
request is granted stream `st`, the final state either records `st` among
the stopped streams (its tracks were stopped — by the late-stream check
or by an interleaved dispose's cleanup) or still owns `st` in `streamRef`
(releasable by a later `cleanup`): no acquired camera handle is leaked on
any exit, failure paths included. -/
theorem claim_C9_no_leak (s : ScannerState) (env : InitEnv)
    (st : MediaStream) (hcam : env.cam = .ok st)
    (hii : s.isInitialized = false) (him : s.isMounted = true) :
    st ∈ ((initScanner s env).1).stoppedStreams ∨
      ((initScanner s env).1).stream = some st := by
  unfold initScanner
  rw [if_neg (by simp [hii, him])]
  exact initAfterCam_owned_or_stopped _ env st hcam

/-- Witness for C9: a fresh session granted stream `7` with everything
succeeding — the stream ends up owned by the session. -/
theorem claim_C9_witness :
    (⟨7⟩ : MediaStream) ∈
      ((initScanner initialState { okEnv with cam := .ok ⟨7⟩ }).1).stoppedStreams ∨
    ((initScanner initialState { okEnv with cam := .ok ⟨7⟩ }).1).stream =
      some ⟨7⟩ :=
  claim_C9_no_leak initialState { okEnv with cam := .ok ⟨7⟩ } ⟨7⟩ rfl rfl rfl

end Barcode
